import Mathlib

/-!
Verification of the tiger-claude command-line client
(`claude_powerbook.py`, `test_setup.py`) against its specification.

The Python code is shallowly embedded: JSON values are an inductive type,
Python dictionary/list operations that can raise become `Except`-valued
helpers, the network is a parameter describing the single HTTP outcome, and
the file system is a map from paths to optional contents (`none` models an
`IOError` on open/read).  Byte strings are modelled as already-decoded
text strings.
-/

set_option maxRecDepth 4000

namespace TigerClaude

/-- JSON values as produced by Python's `json.loads`: Python dicts are
association lists in insertion order (`json.loads` never produces duplicate
keys), numbers are restricted to integers, which covers every number this
program manipulates. -/
inductive Json where
  | null : Json
  | bool (b : Bool) : Json
  | num (n : Int) : Json
  | str (s : String) : Json
  | arr (elems : List Json) : Json
  | obj (fields : List (String × Json)) : Json

mutual

/-- Python `==` on JSON values (structural; on values produced by
`json.loads`, where dict insertion order is the parse order, this agrees
with Python dict equality). -/
def Json.beq : Json → Json → Bool
  | .null, .null => true
  | .bool a, .bool b => a == b
  | .num a, .num b => a == b
  | .str a, .str b => a == b
  | .arr xs, .arr ys => Json.beqList xs ys
  | .obj xs, .obj ys => Json.beqFields xs ys
  | _, _ => false

def Json.beqList : List Json → List Json → Bool
  | [], [] => true
  | x :: xs, y :: ys => Json.beq x y && Json.beqList xs ys
  | _, _ => false

def Json.beqFields : List (String × Json) → List (String × Json) → Bool
  | [], [] => true
  | (k1, v1) :: xs, (k2, v2) :: ys => k1 == k2 && Json.beq v1 v2 && Json.beqFields xs ys
  | _, _ => false

end

/-- First-match lookup in an association list.  `json.loads` never produces
duplicate keys, so this agrees with Python dict lookup. -/
def Json.lookupField : List (String × Json) → String → Option Json
  | [], _ => none
  | (k, v) :: rest, key => if k = key then some v else Json.lookupField rest key

/-- Python `key in value` (the membership test at line 86 of
`claude_powerbook.py`).  Dicts test key membership, lists test element
membership, strings test substring membership; other values raise
`TypeError`. -/
def Json.pyContains : Json → String → Except String Bool
  | .obj fields, k => .ok (Json.lookupField fields k).isSome
  | .arr xs, k => .ok (xs.any fun x => Json.beq x (.str k))
  | .str s, k => .ok (decide (k.isEmpty) || decide ((s.splitOn k).length > 1))
  | _, _ => .error "TypeError: argument is not iterable"

/-- Python `len(value)` on a JSON value; raises `TypeError` for values with
no length. -/
def Json.pyLen : Json → Except String Nat
  | .arr xs => .ok xs.length
  | .obj fields => .ok fields.length
  | .str s => .ok s.length
  | _ => .error "TypeError: object has no len()"

/-- Python `value[i]` for an integer index `i ≥ 0`: list indexing, string
indexing (yielding a one-character string), `KeyError` on dicts without the
integer key, `TypeError` otherwise. -/
def Json.pyIndexNat : Json → Nat → Except String Json
  | .arr xs, i =>
      match xs.get? i with
      | some x => .ok x
      | none => .error "IndexError: list index out of range"
  | .str s, i =>
      match s.toList.get? i with
      | some c => .ok (.str (String.singleton c))
      | none => .error "IndexError: string index out of range"
  | .obj _, _ => .error "KeyError: integer key"
  | _, _ => .error "TypeError: object is not subscriptable"

/-- Python `value[k]` for a string key `k`: dict lookup with `KeyError` on a
missing key, `TypeError` on lists, strings and scalars. -/
def Json.pyIndexStr : Json → String → Except String Json
  | .obj fields, k =>
      match Json.lookupField fields k with
      | some v => .ok v
      | none => .error ("KeyError: " ++ k)
  | .arr _, _ => .error "TypeError: list indices must be integers"
  | .str _, _ => .error "TypeError: string indices must be integers"
  | _, _ => .error "TypeError: object is not subscriptable"

/-- Is this JSON value a Python `str`? -/
def Json.isStr : Json → Bool
  | .str _ => true
  | _ => false

mutual

/-- Python `repr` of a JSON value (scalar spellings `None`/`True`/`False`,
single-quoted strings; string-escape sequences inside the quotes are not
modelled). -/
def Json.pyRepr : Json → String
  | .null => "None"
  | .bool true => "True"
  | .bool false => "False"
  | .num n => toString n
  | .str s => "\x27" ++ s ++ "\x27"
  | .arr xs => "[" ++ Json.pyReprList xs ++ "]"
  | .obj fields => "\x7b" ++ Json.pyReprFields fields ++ "\x7d"

def Json.pyReprList : List Json → String
  | [] => ""
  | [x] => Json.pyRepr x
  | x :: rest => Json.pyRepr x ++ ", " ++ Json.pyReprList rest

def Json.pyReprFields : List (String × Json) → String
  | [] => ""
  | [(k, v)] => "\x27" ++ k ++ "\x27: " ++ Json.pyRepr v
  | (k, v) :: rest => "\x27" ++ k ++ "\x27: " ++ Json.pyRepr v ++ ", " ++ Json.pyReprFields rest

end

/-- Python `str` of a JSON value, as used when a value is interpolated into
an f-string: a `str` renders as itself, anything else via `repr`. -/
def Json.pyStr : Json → String
  | .str s => s
  | v => Json.pyRepr v

/-- JSON string literal for `json.dumps` (double quotes; escapes for the
backslash, the double quote and common control characters). -/
def Json.dumpStringChar (c : Char) : String :=
  if c = '"' then "\\\""
  else if c = '\\' then "\\\\"
  else if c = '\n' then "\\n"
  else if c = '\t' then "\\t"
  else if c = '\r' then "\\r"
  else String.singleton c

def Json.dumpString (s : String) : String :=
  "\"" ++ String.join (s.toList.map Json.dumpStringChar) ++ "\""

mutual

/-- Embeds `json.dumps` with the default separators (", " between items,
": " after keys). -/
def Json.dumps : Json → String
  | .null => "null"
  | .bool true => "true"
  | .bool false => "false"
  | .num n => toString n
  | .str s => Json.dumpString s
  | .arr xs => "[" ++ Json.dumpsList xs ++ "]"
  | .obj fields => "\x7b" ++ Json.dumpsFields fields ++ "\x7d"

def Json.dumpsList : List Json → String
  | [] => ""
  | [x] => Json.dumps x
  | x :: rest => Json.dumps x ++ ", " ++ Json.dumpsList rest

def Json.dumpsFields : List (String × Json) → String
  | [] => ""
  | [(k, v)] => Json.dumpString k ++ ": " ++ Json.dumps v
  | (k, v) :: rest => Json.dumpString k ++ ": " ++ Json.dumps v ++ ", " ++ Json.dumpsFields rest

end

/-! `json.loads`, as a fuelled recursive-descent parser over the character
list.  It supports the JSON subset this program produces and consumes:
null, booleans, integers, strings with the basic escapes, arrays and
objects.  (`\uXXXX` escapes and floating-point numbers are outside the
model.) -/

def skipWs : List Char → List Char
  | c :: rest => if c.isWhitespace then skipWs rest else c :: rest
  | [] => []

/-- Parse the body of a JSON string after the opening quote; returns the
string and the remaining input after the closing quote. -/
def parseStringBody : List Char → Option (String × List Char)
  | [] => none
  | '"' :: rest => some ("", rest)
  | '\\' :: c :: rest => do
      let e ←
        if c = '"' then some "\""
        else if c = '\\' then some "\\"
        else if c = '/' then some "/"
        else if c = 'n' then some "\n"
        else if c = 't' then some "\t"
        else if c = 'r' then some "\r"
        else none
      let (s, r) ← parseStringBody rest
      some (e ++ s, r)
  | c :: rest => do
      let (s, r) ← parseStringBody rest
      some (String.singleton c ++ s, r)

def digitsToNatAux (acc : Nat) : List Char → Nat
  | [] => acc
  | c :: rest => digitsToNatAux (acc * 10 + (c.toNat - 48)) rest

/-- Parse an integer (optional minus sign, one or more digits). -/
def parseInt : List Char → Option (Int × List Char)
  | '-' :: rest =>
      let ds := rest.takeWhile Char.isDigit
      if ds.isEmpty then none
      else some (-(digitsToNatAux 0 ds : Int), rest.dropWhile Char.isDigit)
  | cs =>
      let ds := cs.takeWhile Char.isDigit
      if ds.isEmpty then none
      else some ((digitsToNatAux 0 ds : Int), cs.dropWhile Char.isDigit)

mutual

def parseValue : Nat → List Char → Option (Json × List Char)
  | 0, _ => none
  | fuel + 1, cs =>
      match skipWs cs with
      | '"' :: rest => (parseStringBody rest).map fun p => (.str p.1, p.2)
      | '[' :: rest => parseElems fuel rest
      | '\x7b' :: rest => parseFields fuel rest
      | 't' :: 'r' :: 'u' :: 'e' :: rest => some (.bool true, rest)
      | 'f' :: 'a' :: 'l' :: 's' :: 'e' :: rest => some (.bool false, rest)
      | 'n' :: 'u' :: 'l' :: 'l' :: rest => some (.null, rest)
      | cs2 => (parseInt cs2).map fun p => (.num p.1, p.2)

def parseElems : Nat → List Char → Option (Json × List Char)
  | 0, _ => none
  | fuel + 1, cs =>
      match skipWs cs with
      | ']' :: rest => some (.arr [], rest)
      | cs2 => do
          let (v, r) ← parseValue fuel cs2
          match skipWs r with
          | ',' :: r2 => do
              let (tail, r3) ← parseElems fuel r2
              match tail with
              | .arr vs => some (.arr (v :: vs), r3)
              | _ => none
          | ']' :: r2 => some (.arr [v], r2)
          | _ => none

def parseFields : Nat → List Char → Option (Json × List Char)
  | 0, _ => none
  | fuel + 1, cs =>
      match skipWs cs with
      | '\x7d' :: rest => some (.obj [], rest)
      | '"' :: cs2 => do
          let (k, r) ← parseStringBody cs2
          match skipWs r with
          | ':' :: r2 => do
              let (v, r3) ← parseValue fuel r2
              match skipWs r3 with
              | ',' :: r4 => do
                  let (tail, r5) ← parseFields fuel r4
                  match tail with
                  | .obj fs => some (.obj ((k, v) :: fs), r5)
                  | _ => none
              | '\x7d' :: r4 => some (.obj [(k, v)], r4)
              | _ => none
          | _ => none
      | _ => none

end

/-- Embeds `json.loads`: parse the whole input, requiring only whitespace after the
value. -/
def Json.loads (s : String) : Option Json :=
  match parseValue (s.length + 1) s.toList with
  | some (j, rest) => if (skipWs rest).isEmpty then some j else none
  | none => none

/-! ## Embedding of `claude_powerbook.py` -/

/-- The file system seen by `read_file`: `some text` means `open` + `read`
succeed with that text, `none` means they raise `IOError`. -/
def FS : Type := String → Option String

/-- The body of an HTTP response, after decoding the bytes as text:
either it parses as JSON (`json`, carrying the parsed value) or it does not
(`notJson`, carrying the raw text). -/
inductive Body where
  | json (j : Json) : Body
  | notJson (raw : String) : Body

/-- The outcome of the single `urllib.request.urlopen` call: a 2xx response
with a body, an `HTTPError` with a status code and an error body, a
`URLError` with a reason, or any other exception with its message. -/
inductive NetOutcome where
  | success (body : Body) : NetOutcome
  | httpError (code : Nat) (body : Body) : NetOutcome
  | urlError (reason : String) : NetOutcome
  | otherError (msg : String) : NetOutcome

/-- Module-level configuration constants of `claude_powerbook.py`
(lines 17-20). -/
def API_URL : String := "https://api.anthropic.com/v1/messages"

def API_VERSION : String := "2023-06-01"

def MODEL : String := "claude-sonnet-4-20250514"

def MAX_TOKENS : Nat := 4000

/-- One element of the request's `messages` list. -/
structure Message where
  role : String
  content : String

/-- The request payload dict built at lines 60-66. -/
structure Payload where
  model : String
  max_tokens : Nat
  messages : List Message

/-- The payload as the JSON value that `json.dumps(payload)` serialises
(dict insertion order). -/
def Payload.toJson (p : Payload) : Json :=
  .obj [("model", .str p.model),
        ("max_tokens", .num p.max_tokens),
        ("messages", .arr (p.messages.map fun m =>
          .obj [("role", .str m.role), ("content", .str m.content)]))]

/-- The `urllib.request.Request` object built at lines 70-78. -/
structure PyRequest where
  url : String
  data : String
  headers : List (String × String)

/-- Embeds `read_file` (lines 37-44): returns the contents of the file, or `None` after
printing a message when `open`/`read` raise `IOError`. -/
def read_file (fs : FS) (filepath : String) : Option String :=
  fs filepath

/-- The extraction step of `call_claude_api` (lines 86-89), inside the
`try` block: `.error` carries the message of an uncaught Python exception
(`TypeError` / `KeyError` / `IndexError`), which the enclosing
`except Exception` handler turns into an error string. -/
def extractText (result : Json) : Except String Json := do
  let hasContent ← Json.pyContains result "content"
  if hasContent then do
    let c1 ← Json.pyIndexStr result "content"
    let n ← Json.pyLen c1
    if n > 0 then do
      let c2 ← Json.pyIndexStr result "content"
      let elem0 ← Json.pyIndexNat c2 0
      Json.pyIndexStr elem0 "text"
    else
      pure (.str "ERROR: Unexpected response format")
  else
    pure (.str "ERROR: Unexpected response format")

/-- The `except urllib.error.HTTPError` handler (lines 91-97).  When the
error body parses as JSON, `error_json.get('error', {}).get('message',
'Unknown error')` is interpolated; a `.get` on a non-dict raises
`AttributeError`, which the bare `except:` turns into the raw fallback.
The fallback interpolates the raw bytes; for a body that did parse, the
model renders them via `Json.dumps`. -/
def httpErrorMessage (code : Nat) (body : Body) : String :=
  match body with
  | .json j =>
      match j with
      | .obj fields =>
          match (Json.lookupField fields "error").getD (.obj []) with
          | .obj efields =>
              "API Error (" ++ toString code ++ "): " ++
                Json.pyStr ((Json.lookupField efields "message").getD
                  (.str "Unknown error"))
          | _ => "HTTP Error " ++ toString code ++ ": " ++ Json.dumps j
      | _ => "HTTP Error " ++ toString code ++ ": " ++ Json.dumps j
  | .notJson raw => "HTTP Error " ++ toString code ++ ": " ++ raw

/-- The message of the `json.JSONDecodeError` raised by `json.loads` on a
2xx body that is not JSON (the exact text is produced by the json library;
it does not depend on anything this program controls). -/
def jsonDecodeErrMsg (raw : String) : String :=
  "Expecting value: line 1 column 1 (char 0) [" ++ raw ++ "]"

/-- Everything observable about one execution of `call_claude_api`:
the Python return value (a string on every intended path), whether the
payload dict and the `Request` object were built, and how many times
`urlopen` was invoked. -/
structure ApiTrace where
  result : Json
  payloadBuilt : Option Payload
  requestBuilt : Option PyRequest
  networkCalls : Nat

/-- Embeds `call_claude_api` (lines 46-101).  `apiKey` is the module-level
`ANTHROPIC_API_KEY`, read once from the environment with default `''`
(line 16), so an unset variable is the empty string.  `net` is the outcome
of the one `urlopen` call. -/
def call_claude_api (apiKey : String) (net : NetOutcome) (prompt : String) : ApiTrace :=
  if apiKey = "" then
    { result := .str "ERROR: ANTHROPIC_API_KEY environment variable not set",
      payloadBuilt := none, requestBuilt := none, networkCalls := 0 }
  else
    let payload : Payload :=
      { model := MODEL, max_tokens := MAX_TOKENS,
        messages := [{ role := "user", content := prompt }] }
    let req : PyRequest :=
      { url := API_URL, data := Json.dumps payload.toJson,
        headers := [("Content-Type", "application/json"),
                    ("x-api-key", apiKey),
                    ("anthropic-version", API_VERSION)] }
    let result : Json :=
      match net with
      | .success (.notJson raw) => .str ("Error: " ++ jsonDecodeErrMsg raw)
      | .success (.json j) =>
          match extractText j with
          | .ok v => v
          | .error emsg => .str ("Error: " ++ emsg)
      | .httpError code body => .str (httpErrorMessage code body)
      | .urlError reason => .str ("Connection Error: " ++ reason)
      | .otherError emsg => .str ("Error: " ++ emsg)
    { result := result, payloadBuilt := some payload, requestBuilt := some req,
      networkCalls := 1 }

/-- The `full_prompt` built by `send_to_claude` (lines 111-120).
`if context_files:` is false for `None` and for the empty list; inside the
loop `if content:` is false both when `read_file` returned `None` and when
it returned the empty string. -/
def full_prompt (fs : FS) (prompt : String) (context_files : Option (List String)) : String :=
  match context_files with
  | none => prompt
  | some [] => prompt
  | some files =>
      files.foldl
        (fun acc filepath =>
          match read_file fs filepath with
          | some content =>
              if content = "" then
                acc ++ "\n--- " ++ filepath ++ " ---\n[Could not read file]\n"
              else
                acc ++ "\n--- " ++ filepath ++ " ---\n" ++ content ++ "\n"
          | none => acc ++ "\n--- " ++ filepath ++ " ---\n[Could not read file]\n")
        (prompt ++ "\n\nContext files:\n")

/-- Embeds `send_to_claude` (lines 103-122). -/
def send_to_claude (apiKey : String) (fs : FS) (net : NetOutcome) (prompt : String)
    (context_files : Option (List String)) : ApiTrace :=
  call_claude_api apiKey net (full_prompt fs prompt context_files)

/-! ## Embedding of the command-line surface (`interactive_mode`, `main`) -/

/-- One event read from standard input: a line, a `KeyboardInterrupt`, or —
when the list is exhausted — end-of-input (`EOFError`). -/
inductive InEvent where
  | line (s : String) : InEvent
  | interrupt : InEvent

/-- The process environment as the program observes it. -/
structure World where
  apiKey : String
  fs : FS
  net : NetOutcome
  sslHasTLS12 : Bool
  opensslVersion : String

/-- Embeds `check_ssl` of `claude_powerbook.py` (lines 22-35): returns success and
the lines printed.  (`ssl.OPENSSL_VERSION` is modelled as always present.) -/
def check_ssl (w : World) : Bool × List String :=
  if w.sslHasTLS12 then
    (true, ["Using: " ++ w.opensslVersion])
  else
    (false, ["Using: " ++ w.opensslVersion,
             "WARNING: TLS 1.2 support may not be available",
             "You may need to rebuild Python\x27s ssl module against OpenSSL 3.x"])

/-- Python `line.split(None, maxsplit)` on an already-stripped line: runs of
whitespace separate tokens; after `maxsplit` splits the remainder is kept
verbatim. -/
def pySplitWs (maxsplit : Nat) (cs : List Char) : List String :=
  match maxsplit, cs.dropWhile Char.isWhitespace with
  | _, [] => []
  | 0, rest => [String.mk rest]
  | m + 1, rest =>
      String.mk (rest.takeWhile fun c => !c.isWhitespace) ::
        pySplitWs m (rest.dropWhile fun c => !c.isWhitespace)
termination_by (maxsplit, cs.length)
decreasing_by
  simp only [Prod.lex_iff]
  left
  omega

/-- The lines printed for one dispatched command of the interactive loop
(lines 160-231). `parts` is `line.split(None, 2)`. -/
def handleCommand (w : World) (line : String) : List String :=
  let parts := pySplitWs 2 line.toList
  let command := parts.headD ""
  if command = "ask" then
    if parts.length < 2 then ["Usage: ask <question>"]
    else
      let question := String.intercalate " " (parts.drop 1)
      ["\nThinking...",
       "\n" ++ Json.pyStr (send_to_claude w.apiKey w.fs w.net question none).result ++ "\n"]
  else if command = "file" then
    if parts.length < 3 then ["Usage: file <path> <question>"]
    else
      let filepath := (parts.get? 1).getD ""
      let question := (parts.get? 2).getD ""
      ["\nAnalyzing...",
       "\n" ++ Json.pyStr
         (send_to_claude w.apiKey w.fs w.net question (some [filepath])).result ++ "\n"]
  else if command = "explain" then
    if parts.length < 2 then ["Usage: explain <path>"]
    else
      let filepath := (parts.get? 1).getD ""
      ["\nAnalyzing...",
       "\n" ++ Json.pyStr
         (send_to_claude w.apiKey w.fs w.net
           "Please explain what this code does, how it works, and any important details:"
           (some [filepath])).result ++ "\n"]
  else if command = "fix" then
    if parts.length < 2 then ["Usage: fix <path>"]
    else
      let filepath := (parts.get? 1).getD ""
      ["\nAnalyzing...",
       "\n" ++ Json.pyStr
         (send_to_claude w.apiKey w.fs w.net
           "Please review this code and suggest improvements, bug fixes, or optimizations:"
           (some [filepath])).result ++ "\n"]
  else if command = "review" then
    if parts.length < 2 then ["Usage: review <path>"]
    else
      let filepath := (parts.get? 1).getD ""
      ["\nReviewing...",
       "\n" ++ Json.pyStr
         (send_to_claude w.apiKey w.fs w.net
           ("Please perform a thorough code review, checking for bugs, security issues, " ++
            "style problems, and suggesting improvements:")
           (some [filepath])).result ++ "\n"]
  else if command = "test" then
    if parts.length < 2 then ["Usage: test <path>"]
    else
      let filepath := (parts.get? 1).getD ""
      ["\nGenerating tests...",
       "\n" ++ Json.pyStr
         (send_to_claude w.apiKey w.fs w.net
           "Please generate unit tests for this code. Include edge cases and error conditions:"
           (some [filepath])).result ++ "\n"]
  else
    ["Unknown command: " ++ command]

/-- The `while True` loop of `interactive_mode` (lines 149-236): lines are
handled one by one; `quit` and end-of-input break; `KeyboardInterrupt`
prints a hint and continues. -/
def interactiveLoop (w : World) : List InEvent → List String
  | [] => []
  | .interrupt :: rest => "\nUse \x27quit\x27 to exit" :: interactiveLoop w rest
  | .line l :: rest =>
      let line := l.trim
      if line = "" then interactiveLoop w rest
      else if line = "quit" then []
      else handleCommand w line ++ interactiveLoop w rest

/-- Embeds `interactive_mode` (lines 124-238): banner, SSL check, key check (which
returns early when the key is missing), command help, the loop, and the
farewell line.  Returns every line printed; the function always returns
normally, so the process exit status after it is zero. -/
def interactive_mode (w : World) (events : List InEvent) : List String :=
  let banner := ["Claude Client for PowerBook G4 (Direct API)", ""]
  let ssl := check_ssl w
  let sslLines :=
    if ssl.1 then ssl.2
    else ssl.2 ++ ["\nWARNING: SSL issues detected. API calls may fail.",
                   "Make sure Python is linked against OpenSSL 3.x\n"]
  if w.apiKey = "" then
    banner ++ sslLines ++
      ["ERROR: ANTHROPIC_API_KEY environment variable not set!",
       "Set it with: export ANTHROPIC_API_KEY=sk-ant-..."]
  else
    banner ++ sslLines ++
      ["\nCommands:",
       "  ask <question> - Ask Claude a question",
       "  file <path> <question> - Ask about a specific file",
       "  explain <path> - Ask Claude to explain a file",
       "  fix <path> - Ask Claude to suggest fixes for a file",
       "  review <path> - Get a code review",
       "  test <path> - Generate tests for code",
       "  quit - Exit",
       ""] ++
      interactiveLoop w events ++ ["Goodbye!"]

/-- The observable outcome of one process run: the lines printed and the
exit status. -/
structure MainResult where
  output : List String
  exitCode : Nat

/-- Embeds `main` (lines 240-264).  `argv` is `sys.argv[1:]`.  `sys.exit(1)` is
exit status 1; falling off the end of `main` is exit status 0. -/
def pymain (w : World) (events : List InEvent) (argv : List String) : MainResult :=
  match argv with
  | [] => { output := interactive_mode w events, exitCode := 0 }
  | arg1 :: rest =>
      if arg1 = "--check-ssl" then
        { output := "Checking SSL configuration...\n" :: (check_ssl w).2, exitCode := 0 }
      else if rest.isEmpty then
        if w.apiKey = "" then
          { output := ["ERROR: ANTHROPIC_API_KEY not set"], exitCode := 1 }
        else
          { output := [Json.pyStr (send_to_claude w.apiKey w.fs w.net arg1 none).result],
            exitCode := 0 }
      else
        if w.apiKey = "" then
          { output := ["ERROR: ANTHROPIC_API_KEY not set"], exitCode := 1 }
        else
          { output := [Json.pyStr (send_to_claude w.apiKey w.fs w.net arg1 (some rest)).result],
            exitCode := 0 }

/-! ## Embedding of the diagnostics JSON check (`test_setup.py`) -/

/-- The fixed test object of `check_json` (`test_setup.py` line 70). -/
def test_obj : Json := .obj [("test", .str "value"), ("number", .num 42)]

/-- Embeds `check_json` (`test_setup.py` lines 61-85): encode the fixed object,
decode it back, pass exactly when the decoded structure equals the
original.  (The `import json` guard cannot fail in the model; `json.dumps`
output always re-parses, so the decode step is total here.) -/
def check_json : Bool :=
  let encoded := Json.dumps test_obj
  match Json.loads encoded with
  | some decoded => Json.beq decoded test_obj
  | none => false

/-! ## Specification-side definitions

These definitions follow the wording of the specification (section 4.1 and
the testable properties), to be compared with the embedded code above. -/

/-- One delimited context section as the specification describes it, with
the empty-read behaviour of the code: the marker replaces the content when
the read fails or returns the empty string. -/
def sectionText (fs : FS) (filepath : String) : String :=
  "\n--- " ++ filepath ++ " ---\n" ++
    (match read_file fs filepath with
     | some content => if content = "" then "[Could not read file]" else content
     | none => "[Could not read file]") ++ "\n"

/-- The concatenation of the context sections of a list of paths, in the
given order. -/
def concatSections (fs : FS) : List String → String
  | [] => ""
  | p :: rest => sectionText fs p ++ concatSections fs rest

/-- The file system with every file whose contents are empty turned into an
unreadable file. -/
def failEmpty (fs : FS) : FS := fun p =>
  match fs p with
  | some "" => none
  | v => v

/-- The value sitting at `content[0].text` of a parsed 2xx body, when the
body is an object whose `content` field is a non-empty array whose first
element is an object with a `text` field; `none` otherwise. -/
def successTextVal : Json → Option Json
  | .obj fields =>
      match Json.lookupField fields "content" with
      | some (.arr (elem0 :: _)) =>
          match elem0 with
          | .obj efields => Json.lookupField efields "text"
          | _ => none
      | _ => none
  | _ => none

/-- The map `successTextVal` lifted to a network outcome. -/
def respTextVal : NetOutcome → Option Json
  | .success (.json j) => successTextVal j
  | _ => none

/-! ## Helper lemmas -/

mutual

/-- The comparison `Json.beq` decides propositional equality, so the diagnostics' `==`
comparison is exactly structural equality of the decoded value. -/
theorem Json.beq_iff : ∀ a b : Json, Json.beq a b = true ↔ a = b
  | .null, .null => by simp [Json.beq]
  | .null, .bool _ | .null, .num _ | .null, .str _ | .null, .arr _ | .null, .obj _ => by
      simp [Json.beq]
  | .bool _, .null | .bool _, .num _ | .bool _, .str _ | .bool _, .arr _ | .bool _, .obj _ => by
      simp [Json.beq]
  | .num _, .null | .num _, .bool _ | .num _, .str _ | .num _, .arr _ | .num _, .obj _ => by
      simp [Json.beq]
  | .str _, .null | .str _, .bool _ | .str _, .num _ | .str _, .arr _ | .str _, .obj _ => by
      simp [Json.beq]
  | .arr _, .null | .arr _, .bool _ | .arr _, .num _ | .arr _, .str _ | .arr _, .obj _ => by
      simp [Json.beq]
  | .obj _, .null | .obj _, .bool _ | .obj _, .num _ | .obj _, .str _ | .obj _, .arr _ => by
      simp [Json.beq]
  | .bool a, .bool b => by simp [Json.beq]
  | .num a, .num b => by simp [Json.beq]
  | .str a, .str b => by simp [Json.beq]
  | .arr xs, .arr ys => by
      simp only [Json.beq, Json.arr.injEq]
      exact Json.beqList_iff xs ys
  | .obj xs, .obj ys => by
      simp only [Json.beq, Json.obj.injEq]
      exact Json.beqFields_iff xs ys

theorem Json.beqList_iff : ∀ xs ys : List Json, Json.beqList xs ys = true ↔ xs = ys
  | [], [] => by simp [Json.beqList]
  | [], _ :: _ => by simp [Json.beqList]
  | _ :: _, [] => by simp [Json.beqList]
  | x :: xs, y :: ys => by
      simp only [Json.beqList, Bool.and_eq_true, List.cons.injEq]
      exact and_congr (Json.beq_iff x y) (Json.beqList_iff xs ys)

theorem Json.beqFields_iff :
    ∀ xs ys : List (String × Json), Json.beqFields xs ys = true ↔ xs = ys
  | [], [] => by simp [Json.beqFields]
  | [], _ :: _ => by simp [Json.beqFields]
  | _ :: _, [] => by simp [Json.beqFields]
  | (k1, v1) :: xs, (k2, v2) :: ys => by
      simp only [Json.beqFields, Bool.and_eq_true, List.cons.injEq, Prod.mk.injEq, beq_iff_eq,
        Json.beq_iff v1 v2, Json.beqFields_iff xs ys]

end

/-- Re-association of the literal pieces of a marker section. -/
theorem marker_chunk (k : String) :
    (" ---\n" : String) ++ ("[Could not read file]" ++ ("\n" ++ k)) =
      " ---\n[Could not read file]\n" ++ k := by
  rw [← String.append_assoc, ← String.append_assoc,
    show (" ---\n" ++ "[Could not read file]" ++ "\n" : String) =
      " ---\n[Could not read file]\n" from by decide]

/-- The accumulator-passing loop of `full_prompt` appends exactly one
section per path, in order. -/
theorem foldl_sections (fs : FS) :
    ∀ (files : List String) (acc : String),
      List.foldl
        (fun acc filepath =>
          match read_file fs filepath with
          | some content =>
              if content = "" then
                acc ++ "\n--- " ++ filepath ++ " ---\n[Could not read file]\n"
              else
                acc ++ "\n--- " ++ filepath ++ " ---\n" ++ content ++ "\n"
          | none => acc ++ "\n--- " ++ filepath ++ " ---\n[Could not read file]\n")
        acc files
      = acc ++ concatSections fs files
  | [], acc => by simp [concatSections, String.append_empty]
  | p :: rest, acc => by
      rw [List.foldl_cons, foldl_sections fs rest]
      cases h : read_file fs p with
      | some c =>
          by_cases hc : c = "" <;>
            simp [concatSections, sectionText, h, hc, String.append_assoc, marker_chunk]
      | none => simp [concatSections, sectionText, h, String.append_assoc, marker_chunk]

/-- Characterisation of `full_prompt` on a non-empty file list. -/
theorem full_prompt_some (fs : FS) (prompt : String) :
    ∀ (files : List String), files ≠ [] →
      full_prompt fs prompt (some files) =
        prompt ++ "\n\nContext files:\n" ++ concatSections fs files
  | [], h => absurd rfl h
  | p :: rest, _ => foldl_sections fs (p :: rest) (prompt ++ "\n\nContext files:\n")

theorem sectionText_failEmpty (fs : FS) (p : String) :
    sectionText (failEmpty fs) p = sectionText fs p := by
  unfold sectionText read_file failEmpty
  cases h : fs p with
  | none => simp
  | some c => by_cases hc : c = "" <;> simp [hc]

theorem concatSections_failEmpty (fs : FS) :
    ∀ files : List String, concatSections (failEmpty fs) files = concatSections fs files
  | [] => rfl
  | p :: rest => by
      simp [concatSections, sectionText_failEmpty, concatSections_failEmpty fs rest]

/-- Whenever `extractText` returns normally, the returned Python value is
either a string or exactly the `content[0].text` value of the body. -/
theorem extractText_isStr_or (j : Json) :
    ∀ v : Json, extractText j = .ok v → v.isStr = true ∨ successTextVal j = some v := by
  intro v hv
  cases j with
  | null => simp [extractText, Json.pyContains, bind, Except.bind] at hv
  | bool b => simp [extractText, Json.pyContains, bind, Except.bind] at hv
  | num n => simp [extractText, Json.pyContains, bind, Except.bind] at hv
  | str s =>
      simp only [extractText, Json.pyContains, bind, Except.bind] at hv
      split at hv
      · simp [Json.pyIndexStr, bind, Except.bind] at hv
      · simp only [pure, Except.pure, Except.ok.injEq] at hv
        subst hv
        left
        rfl
  | arr xs =>
      simp only [extractText, Json.pyContains, bind, Except.bind] at hv
      split at hv
      · simp [Json.pyIndexStr, bind, Except.bind] at hv
      · simp only [pure, Except.pure, Except.ok.injEq] at hv
        subst hv
        left
        rfl
  | obj fields =>
      simp only [extractText, Json.pyContains, bind, Except.bind] at hv
      cases hc : Json.lookupField fields "content" with
      | none =>
          simp only [hc, Option.isSome_none, Bool.false_eq_true, if_false, pure, Except.pure,
            Except.ok.injEq] at hv
          subst hv
          left
          rfl
      | some c =>
          simp only [hc, Option.isSome_some, if_true, Json.pyIndexStr] at hv
          cases c with
          | null => simp [Json.pyLen, bind, Except.bind] at hv
          | bool b => simp [Json.pyLen, bind, Except.bind] at hv
          | num n => simp [Json.pyLen, bind, Except.bind] at hv
          | str s =>
              simp only [Json.pyLen, bind, Except.bind] at hv
              split at hv
              · cases hg : s.data[0]? with
                | none => simp [Json.pyIndexNat, hg, bind, Except.bind] at hv
                | some ch => simp [Json.pyIndexNat, hg, bind, Except.bind, Json.pyIndexStr] at hv
              · simp only [pure, Except.pure, Except.ok.injEq] at hv
                subst hv
                left
                rfl
          | obj fs2 =>
              simp only [Json.pyLen, bind, Except.bind] at hv
              split at hv
              · simp [Json.pyIndexNat, bind, Except.bind] at hv
              · simp only [pure, Except.pure, Except.ok.injEq] at hv
                subst hv
                left
                rfl
          | arr elems =>
              simp only [Json.pyLen, bind, Except.bind] at hv
              cases elems with
              | nil =>
                  simp only [List.length_nil, Nat.lt_irrefl, if_false, pure, Except.pure,
                    Except.ok.injEq] at hv
                  subst hv
                  left
                  rfl
              | cons e0 erest =>
                  simp only [List.length_cons, Nat.succ_pos, if_true, Json.pyIndexNat,
                    List.get?_cons_zero, bind, Except.bind] at hv
                  cases e0 with
                  | obj efields =>
                      cases ht : Json.lookupField efields "text" with
                      | none => simp [Json.pyIndexStr, ht] at hv
                      | some t =>
                          simp only [Json.pyIndexStr, ht, Except.ok.injEq] at hv
                          right
                          simp [successTextVal, hc, ht, hv]
                  | null => simp [Json.pyIndexStr] at hv
                  | bool b => simp [Json.pyIndexStr] at hv
                  | num n => simp [Json.pyIndexStr] at hv
                  | str s => simp [Json.pyIndexStr] at hv
                  | arr a => simp [Json.pyIndexStr] at hv

/-- Function `call_claude_api` returns a string on every path except the success
path that surfaces a non-string `content[0].text` value verbatim. -/
theorem call_isStr_or (apiKey : String) (net : NetOutcome) (prompt : String) :
    ((call_claude_api apiKey net prompt).result).isStr = true ∨
      respTextVal net = some (call_claude_api apiKey net prompt).result := by
  by_cases hkey : apiKey = ""
  · left
    simp [call_claude_api, hkey, Json.isStr]
  · cases net with
    | success body =>
        cases body with
        | notJson raw => left; simp [call_claude_api, hkey, Json.isStr]
        | json j =>
            cases hx : extractText j with
            | error e => left; simp [call_claude_api, hkey, hx, Json.isStr]
            | ok v =>
                rcases extractText_isStr_or j v hx with h | h
                · left; simp [call_claude_api, hkey, hx, h]
                · right; simp [call_claude_api, hkey, hx, respTextVal, h]
    | httpError code body => left; simp [call_claude_api, hkey, Json.isStr]
    | urlError reason => left; simp [call_claude_api, hkey, Json.isStr]
    | otherError msg => left; simp [call_claude_api, hkey, Json.isStr]

/-- With a non-empty key the payload dict that `call_claude_api` builds
carries exactly one user message holding the prompt. -/
theorem call_payloadBuilt (apiKey : String) (net : NetOutcome) (prompt : String)
    (hkey : apiKey ≠ "") :
    (call_claude_api apiKey net prompt).payloadBuilt =
      some { model := MODEL, max_tokens := MAX_TOKENS,
             messages := [{ role := "user", content := prompt }] } := by
  simp [call_claude_api, hkey]

/-! ## Claims -/

/-- C1, counterexample to the claim as stated: a context file that exists
and reads successfully as the empty string is rendered with the fixed
"[Could not read file]" marker, not as a delimited section holding its
(empty) content, although its read did not fail. -/
theorem claim_C1_counterexample :
    full_prompt (fun _ => some "") "p" (some ["f"]) =
      "p\n\nContext files:\n\n--- f ---\n[Could not read file]\n" ∧
    full_prompt (fun _ => some "") "p" (some ["f"]) ≠
      "p\n\nContext files:\n\n--- f ---\n\n" := by
  exact ⟨by decide, by decide⟩

/-- C1 (amended): for every prompt and every non-empty ordered list of file
paths, the prompt text built by `send_to_claude` is the prompt followed by
the context header and one delimited section per path, in the given order,
each labeled with its path (`--- path ---` header, payload, blank line);
the payload is the file's contents when the read succeeds with non-empty
text, and the fixed "[Could not read file]" marker when the read fails or
returns empty text; the builder never raises. -/
theorem claim_C1_amended (fs : FS) (prompt : String) (files : List String)
    (h : files ≠ []) :
    full_prompt fs prompt (some files) =
      prompt ++ "\n\nContext files:\n" ++ concatSections fs files :=
  full_prompt_some fs prompt files h

/-- C1 witness: the amended claim at a concrete two-file list. -/
theorem claim_C1_witness :
    full_prompt (fun p => if p = "a" then some "A" else none) "q" (some ["a", "b"]) =
      "q" ++ "\n\nContext files:\n" ++
        concatSections (fun p => if p = "a" then some "A" else none) ["a", "b"] :=
  claim_C1_amended (fun p => if p = "a" then some "A" else none) "q" ["a", "b"] (by simp)

/-- C2: for every decoded HTTP 2xx response body that is JSON containing a
non-empty `content` array whose first element has a (string) `text` field,
`call_claude_api` returns exactly that `content[0].text` string. -/
theorem claim_C2 (apiKey prompt : String) (fields efields : List (String × Json))
    (rest : List Json) (s : String)
    (hkey : apiKey ≠ "")
    (hcontent : Json.lookupField fields "content" = some (.arr (.obj efields :: rest)))
    (htext : Json.lookupField efields "text" = some (.str s)) :
    (call_claude_api apiKey (.success (.json (.obj fields))) prompt).result = .str s := by
  have hx : extractText (Json.obj fields) = .ok (.str s) := by
    simp [extractText, Json.pyContains, hcontent, Json.pyIndexStr, Json.pyLen,
      Json.pyIndexNat, htext, bind, Except.bind]
  simp [call_claude_api, hkey, hx]

/-- C2 witness: a concrete success body with one content block. -/
theorem claim_C2_witness :
    (call_claude_api "k"
        (.success (.json (.obj [("content", .arr [.obj [("text", .str "hi")]])]))) "p").result
      = .str "hi" :=
  claim_C2 "k" "p" [("content", .arr [.obj [("text", .str "hi")]])] [("text", .str "hi")]
    [] "hi" (by decide) rfl rfl

/-- C3: with the credential environment variable absent (the module-level
key is the empty string, covering both unset and empty), `call_claude_api`
returns the fixed "key not set" message for every prompt and every network
behaviour, builds no payload and no request object, and attempts no
network call. -/
theorem claim_C3 (net : NetOutcome) (prompt : String) :
    call_claude_api "" net prompt =
      { result := .str "ERROR: ANTHROPIC_API_KEY environment variable not set",
        payloadBuilt := none, requestBuilt := none, networkCalls := 0 } := rfl

/-- C4, counterexample to the claim as stated: a simulated 2xx response
whose `content[0].text` is the JSON number 42 makes `call_claude_api`
return that number itself (Python returns the field verbatim), so the
layer's return value is not always a string. -/
theorem claim_C4_counterexample :
    (call_claude_api "k"
        (.success (.json (.obj [("content", .arr [.obj [("text", .num 42)]])]))) "p").result
      = .num 42 ∧
    ((call_claude_api "k"
        (.success (.json (.obj [("content", .arr [.obj [("text", .num 42)]])]))) "p").result
      ).isStr = false :=
  ⟨rfl, rfl⟩

/-- C4 (amended): for every input (prompt, context-file list, environment
and simulated network/response outcome) the client layer returns a value
and no exception propagates; the value is a string on every error path and
on every success path whose `content[0].text` is a string — the sole
exception is a success response carrying a non-string `text` field, which
is returned verbatim. -/
theorem claim_C4_amended (apiKey : String) (fs : FS) (net : NetOutcome) (prompt : String)
    (cf : Option (List String)) :
    ((send_to_claude apiKey fs net prompt cf).result).isStr = true ∨
      respTextVal net = some (send_to_claude apiKey fs net prompt cf).result :=
  call_isStr_or apiKey net (full_prompt fs prompt cf)

/-- C5: for every decoded HTTP 2xx response body that is a JSON object
with a missing `content` field or an empty `content` array,
`call_claude_api` returns the fixed "unexpected response format" message. -/
theorem claim_C5 (apiKey prompt : String) (fields : List (String × Json))
    (hkey : apiKey ≠ "")
    (h : Json.lookupField fields "content" = none ∨
         Json.lookupField fields "content" = some (.arr [])) :
    (call_claude_api apiKey (.success (.json (.obj fields))) prompt).result =
      .str "ERROR: Unexpected response format" := by
  rcases h with h | h
  · have hx : extractText (Json.obj fields) =
        .ok (.str "ERROR: Unexpected response format") := by
      simp [extractText, Json.pyContains, h, bind, Except.bind, pure, Except.pure]
    simp [call_claude_api, hkey, hx]
  · have hx : extractText (Json.obj fields) =
        .ok (.str "ERROR: Unexpected response format") := by
      simp [extractText, Json.pyContains, h, Json.pyIndexStr, Json.pyLen,
        bind, Except.bind, pure, Except.pure]
    simp [call_claude_api, hkey, hx]

/-- C5 witness: a concrete body with no `content` field and a concrete body
with an empty `content` array. -/
theorem claim_C5_witness :
    (call_claude_api "k" (.success (.json (.obj [("id", .str "x")]))) "p").result =
      .str "ERROR: Unexpected response format" :=
  claim_C5 "k" "p" [("id", .str "x")] (by decide) (Or.inl rfl)

/-- C6: for every HTTP error response, when the error body parses as JSON
with a string at `error.message` the returned string is
`API Error (code): message` — containing both the numeric status code and
the message — and when the body does not parse as JSON the returned string
is the fallback `HTTP Error code: body`, containing the raw status code
and the raw body text. -/
theorem claim_C6 (apiKey prompt : String) (code : Nat) (hkey : apiKey ≠ "") :
    (∀ (fields efields : List (String × Json)) (m : String),
        Json.lookupField fields "error" = some (.obj efields) →
        Json.lookupField efields "message" = some (.str m) →
        (call_claude_api apiKey (.httpError code (.json (.obj fields))) prompt).result =
          .str ("API Error (" ++ toString code ++ "): " ++ m)) ∧
    (∀ raw : String,
        (call_claude_api apiKey (.httpError code (.notJson raw)) prompt).result =
          .str ("HTTP Error " ++ toString code ++ ": " ++ raw)) := by
  constructor
  · intro fields efields m herr hmsg
    simp [call_claude_api, hkey, httpErrorMessage, herr, hmsg, Json.pyStr]
  · intro raw
    simp [call_claude_api, hkey, httpErrorMessage]

/-- C6 witness: a 404 with a JSON `error.message` body and a 500 with a
non-JSON body. -/
theorem claim_C6_witness :
    (call_claude_api "k"
        (.httpError 404 (.json (.obj [("error", .obj [("message", .str "bad")])]))) "p").result
      = .str ("API Error (" ++ toString (404 : Nat) ++ "): " ++ "bad") ∧
    (call_claude_api "k" (.httpError 500 (.notJson "oops")) "p").result
      = .str ("HTTP Error " ++ toString (500 : Nat) ++ ": " ++ "oops") :=
  ⟨(claim_C6 "k" "p" 404 (by decide)).1 [("error", .obj [("message", .str "bad")])]
      [("message", .str "bad")] "bad" rfl rfl,
   (claim_C6 "k" "p" 500 (by decide)).2 "oops"⟩

/-- C7: with no context files (list absent or empty), whenever a request
payload is built its `messages` list is exactly one user message whose
content is the prompt, unaltered. -/
theorem claim_C7 (apiKey : String) (fs : FS) (net : NetOutcome) (prompt : String)
    (cf : Option (List String)) (hcf : cf = none ∨ cf = some [])
    (pl : Payload)
    (hpl : (send_to_claude apiKey fs net prompt cf).payloadBuilt = some pl) :
    pl.messages = [{ role := "user", content := prompt }] := by
  have hfp : full_prompt fs prompt cf = prompt := by
    rcases hcf with h | h <;> subst h <;> rfl
  by_cases hkey : apiKey = ""
  · simp [send_to_claude, call_claude_api, hkey] at hpl
  · rw [send_to_claude, call_payloadBuilt apiKey net _ hkey, hfp] at hpl
    cases hpl
    rfl

/-- C7 witness: a concrete call with no context files. -/
theorem claim_C7_witness :
    (send_to_claude "k" (fun _ => none) (.urlError "e") "hi" none).payloadBuilt =
      some { model := MODEL, max_tokens := MAX_TOKENS,
             messages := [{ role := "user", content := "hi" }] } ∧
    Payload.messages
        { model := MODEL, max_tokens := MAX_TOKENS,
          messages := [{ role := "user", content := "hi" }] } =
      [{ role := "user", content := "hi" }] :=
  ⟨rfl,
   claim_C7 "k" (fun _ => none) (.urlError "e") "hi" none (Or.inl rfl) _ rfl⟩

/-- C8: a single-shot invocation (positional arguments, not the reserved
`--check-ssl` flag) with no credential prints the error line and exits with
status 1; an interactive invocation (no arguments) exits with status 0 for
every input sequence. -/
theorem claim_C8 (w : World) (events : List InEvent) (a : String) (args : List String) :
    (a ≠ "--check-ssl" → w.apiKey = "" →
        (pymain w events (a :: args)).exitCode = 1 ∧
        "ERROR: ANTHROPIC_API_KEY not set" ∈ (pymain w events (a :: args)).output) ∧
    (pymain w events []).exitCode = 0 := by
  constructor
  · intro ha hkey
    cases args with
    | nil => simp [pymain, ha, hkey]
    | cons b rest => simp [pymain, ha, hkey]
  · rfl

/-- C8 witness: one concrete single-shot run without a key, and the
interactive part at the same world. -/
theorem claim_C8_witness :
    ("q" : String) ≠ "--check-ssl" ∧
    (pymain ⟨"", fun _ => none, .urlError "e", true, "v"⟩ [] ["q"]).exitCode = 1 ∧
    "ERROR: ANTHROPIC_API_KEY not set" ∈
      (pymain ⟨"", fun _ => none, .urlError "e", true, "v"⟩ [] ["q"]).output :=
  ⟨by decide,
   (claim_C8 ⟨"", fun _ => none, .urlError "e", true, "v"⟩ [] "q" []).1 (by decide) rfl⟩

/-- C9: the diagnostics JSON check encodes the fixed object
`{"test": "value", "number": 42}`, decodes it back to an equal structure,
and passes. -/
theorem claim_C9 :
    Json.loads (Json.dumps test_obj) = some test_obj ∧ check_json = true :=
  ⟨rfl, rfl⟩

/-- C10: a context file that exists and is readable but whose contents are
the empty string is rendered with the fixed "[Could not read file]"
placeholder — exactly the same rendering as a file whose read failed
(`full_prompt` is unchanged by turning every empty read into a failing
one), because the read result is tested for truthiness, not for read
success. -/
theorem claim_C10 (fs : FS) (prompt : String) (cf : Option (List String)) :
    full_prompt fs prompt cf = full_prompt (failEmpty fs) prompt cf ∧
    (∀ p : String, fs p = some "" →
        sectionText fs p =
          "\n--- " ++ p ++ " ---\n" ++ "[Could not read file]" ++ "\n") := by
  constructor
  · match cf with
    | none => rfl
    | some [] => rfl
    | some (p :: rest) =>
        rw [full_prompt_some fs prompt (p :: rest) (by simp),
          full_prompt_some (failEmpty fs) prompt (p :: rest) (by simp),
          concatSections_failEmpty]
  · intro p hp
    simp [sectionText, read_file, hp]

/-- C10 witness: a concrete file system where every file reads as empty. -/
theorem claim_C10_witness :
    full_prompt (fun _ => some "") "p" (some ["f"]) =
      full_prompt (failEmpty (fun _ => some "")) "p" (some ["f"]) ∧
    sectionText (fun _ => some "") "f" =
      "\n--- " ++ "f" ++ " ---\n" ++ "[Could not read file]" ++ "\n" :=
  ⟨(claim_C10 (fun _ => some "") "p" (some ["f"])).1,
   (claim_C10 (fun _ => some "") "p" (some ["f"])).2 "f" rfl⟩

end TigerClaude
